import Mathlib

/-!
# EXTI register-map verification

A shallow embedding of `src/EXIT_lib.h`, the header-only register map of the
STM32L4 EXTI peripheral.  Every `m...` constant below transcribes the C macro
of the same name; registers are 32-bit words modelled as `Nat` values below
`2 ^ 32`, and `1u << n` is transcribed as `1 <<< n`.
-/

namespace EXTI

/-! Per-line bit masks of `EXTI_IMR1`, from `#define mEXTI_IMR1_IM<n> (1u << k)`. -/

def mEXTI_IMR1_IM0 : Nat := 1 <<< 0
def mEXTI_IMR1_IM1 : Nat := 1 <<< 1
def mEXTI_IMR1_IM2 : Nat := 1 <<< 2
def mEXTI_IMR1_IM3 : Nat := 1 <<< 3
def mEXTI_IMR1_IM4 : Nat := 1 <<< 4
def mEXTI_IMR1_IM5 : Nat := 1 <<< 5
def mEXTI_IMR1_IM6 : Nat := 1 <<< 6
def mEXTI_IMR1_IM7 : Nat := 1 <<< 7
def mEXTI_IMR1_IM8 : Nat := 1 <<< 8
def mEXTI_IMR1_IM9 : Nat := 1 <<< 9
def mEXTI_IMR1_IM10 : Nat := 1 <<< 10
def mEXTI_IMR1_IM11 : Nat := 1 <<< 11
def mEXTI_IMR1_IM12 : Nat := 1 <<< 12
def mEXTI_IMR1_IM13 : Nat := 1 <<< 13
def mEXTI_IMR1_IM14 : Nat := 1 <<< 14
def mEXTI_IMR1_IM15 : Nat := 1 <<< 15
def mEXTI_IMR1_IM16 : Nat := 1 <<< 16
def mEXTI_IMR1_IM17 : Nat := 1 <<< 17
def mEXTI_IMR1_IM18 : Nat := 1 <<< 18
def mEXTI_IMR1_IM19 : Nat := 1 <<< 19
def mEXTI_IMR1_IM20 : Nat := 1 <<< 20
def mEXTI_IMR1_IM21 : Nat := 1 <<< 21
def mEXTI_IMR1_IM22 : Nat := 1 <<< 22
def mEXTI_IMR1_IM23 : Nat := 1 <<< 23
def mEXTI_IMR1_IM24 : Nat := 1 <<< 24
def mEXTI_IMR1_IM25 : Nat := 1 <<< 25
def mEXTI_IMR1_IM26 : Nat := 1 <<< 26
def mEXTI_IMR1_IM27 : Nat := 1 <<< 27
def mEXTI_IMR1_IM28 : Nat := 1 <<< 28
def mEXTI_IMR1_IM29 : Nat := 1 <<< 29
def mEXTI_IMR1_IM30 : Nat := 1 <<< 30
def mEXTI_IMR1_IM31 : Nat := 1 <<< 31

/-! Per-line bit masks of `EXTI_EMR1`, from `#define mEXTI_EMR1_EM<n> (1u << k)`. -/

def mEXTI_EMR1_EM0 : Nat := 1 <<< 0
def mEXTI_EMR1_EM1 : Nat := 1 <<< 1
def mEXTI_EMR1_EM2 : Nat := 1 <<< 2
def mEXTI_EMR1_EM3 : Nat := 1 <<< 3
def mEXTI_EMR1_EM4 : Nat := 1 <<< 4
def mEXTI_EMR1_EM5 : Nat := 1 <<< 5
def mEXTI_EMR1_EM6 : Nat := 1 <<< 6
def mEXTI_EMR1_EM7 : Nat := 1 <<< 7
def mEXTI_EMR1_EM8 : Nat := 1 <<< 8
def mEXTI_EMR1_EM9 : Nat := 1 <<< 9
def mEXTI_EMR1_EM10 : Nat := 1 <<< 10
def mEXTI_EMR1_EM11 : Nat := 1 <<< 11
def mEXTI_EMR1_EM12 : Nat := 1 <<< 12
def mEXTI_EMR1_EM13 : Nat := 1 <<< 13
def mEXTI_EMR1_EM14 : Nat := 1 <<< 14
def mEXTI_EMR1_EM15 : Nat := 1 <<< 15
def mEXTI_EMR1_EM16 : Nat := 1 <<< 16
def mEXTI_EMR1_EM17 : Nat := 1 <<< 17
def mEXTI_EMR1_EM18 : Nat := 1 <<< 18
def mEXTI_EMR1_EM19 : Nat := 1 <<< 19
def mEXTI_EMR1_EM20 : Nat := 1 <<< 20
def mEXTI_EMR1_EM21 : Nat := 1 <<< 21
def mEXTI_EMR1_EM22 : Nat := 1 <<< 22
def mEXTI_EMR1_EM23 : Nat := 1 <<< 23
def mEXTI_EMR1_EM24 : Nat := 1 <<< 24
def mEXTI_EMR1_EM25 : Nat := 1 <<< 25
def mEXTI_EMR1_EM26 : Nat := 1 <<< 26
def mEXTI_EMR1_EM27 : Nat := 1 <<< 27
def mEXTI_EMR1_EM28 : Nat := 1 <<< 28
def mEXTI_EMR1_EM29 : Nat := 1 <<< 29
def mEXTI_EMR1_EM30 : Nat := 1 <<< 30
def mEXTI_EMR1_EM31 : Nat := 1 <<< 31

/-! Per-line bit masks of `EXTI_RTSR1`, from `#define mEXTI_RTSR1_RT<n> (1u << k)`. -/

def mEXTI_RTSR1_RT0 : Nat := 1 <<< 0
def mEXTI_RTSR1_RT1 : Nat := 1 <<< 1
def mEXTI_RTSR1_RT2 : Nat := 1 <<< 2
def mEXTI_RTSR1_RT3 : Nat := 1 <<< 3
def mEXTI_RTSR1_RT4 : Nat := 1 <<< 4
def mEXTI_RTSR1_RT5 : Nat := 1 <<< 5
def mEXTI_RTSR1_RT6 : Nat := 1 <<< 6
def mEXTI_RTSR1_RT7 : Nat := 1 <<< 7
def mEXTI_RTSR1_RT8 : Nat := 1 <<< 8
def mEXTI_RTSR1_RT9 : Nat := 1 <<< 9
def mEXTI_RTSR1_RT10 : Nat := 1 <<< 10
def mEXTI_RTSR1_RT11 : Nat := 1 <<< 11
def mEXTI_RTSR1_RT12 : Nat := 1 <<< 12
def mEXTI_RTSR1_RT13 : Nat := 1 <<< 13
def mEXTI_RTSR1_RT14 : Nat := 1 <<< 14
def mEXTI_RTSR1_RT15 : Nat := 1 <<< 15
def mEXTI_RTSR1_RT16 : Nat := 1 <<< 16
def mEXTI_RTSR1_RT18 : Nat := 1 <<< 18
def mEXTI_RTSR1_RT19 : Nat := 1 <<< 19
def mEXTI_RTSR1_RT20 : Nat := 1 <<< 20
def mEXTI_RTSR1_RT21 : Nat := 1 <<< 21
def mEXTI_RTSR1_RT22 : Nat := 1 <<< 22

/-! Per-line bit masks of `EXTI_FTSR1`, from `#define mEXTI_FTSR1_FT<n> (1u << k)`. -/

def mEXTI_FTSR1_FT0 : Nat := 1 <<< 0
def mEXTI_FTSR1_FT1 : Nat := 1 <<< 1
def mEXTI_FTSR1_FT2 : Nat := 1 <<< 2
def mEXTI_FTSR1_FT3 : Nat := 1 <<< 3
def mEXTI_FTSR1_FT4 : Nat := 1 <<< 4
def mEXTI_FTSR1_FT5 : Nat := 1 <<< 5
def mEXTI_FTSR1_FT6 : Nat := 1 <<< 6
def mEXTI_FTSR1_FT7 : Nat := 1 <<< 7
def mEXTI_FTSR1_FT8 : Nat := 1 <<< 8
def mEXTI_FTSR1_FT9 : Nat := 1 <<< 9
def mEXTI_FTSR1_FT10 : Nat := 1 <<< 10
def mEXTI_FTSR1_FT11 : Nat := 1 <<< 11
def mEXTI_FTSR1_FT12 : Nat := 1 <<< 12
def mEXTI_FTSR1_FT13 : Nat := 1 <<< 13
def mEXTI_FTSR1_FT14 : Nat := 1 <<< 14
def mEXTI_FTSR1_FT15 : Nat := 1 <<< 15
def mEXTI_FTSR1_FT16 : Nat := 1 <<< 16
def mEXTI_FTSR1_FT18 : Nat := 1 <<< 18
def mEXTI_FTSR1_FT19 : Nat := 1 <<< 19
def mEXTI_FTSR1_FT20 : Nat := 1 <<< 20
def mEXTI_FTSR1_FT21 : Nat := 1 <<< 21
def mEXTI_FTSR1_FT22 : Nat := 1 <<< 22

/-! Per-line bit masks of `EXTI_SWIER1`, from `#define mEXTI_SWIER1_SWI<n> (1u << k)`. -/

def mEXTI_SWIER1_SWI0 : Nat := 1 <<< 0
def mEXTI_SWIER1_SWI1 : Nat := 1 <<< 1
def mEXTI_SWIER1_SWI2 : Nat := 1 <<< 2
def mEXTI_SWIER1_SWI3 : Nat := 1 <<< 3
def mEXTI_SWIER1_SWI4 : Nat := 1 <<< 4
def mEXTI_SWIER1_SWI5 : Nat := 1 <<< 5
def mEXTI_SWIER1_SWI6 : Nat := 1 <<< 6
def mEXTI_SWIER1_SWI7 : Nat := 1 <<< 7
def mEXTI_SWIER1_SWI8 : Nat := 1 <<< 8
def mEXTI_SWIER1_SWI9 : Nat := 1 <<< 9
def mEXTI_SWIER1_SWI10 : Nat := 1 <<< 10
def mEXTI_SWIER1_SWI11 : Nat := 1 <<< 11
def mEXTI_SWIER1_SWI12 : Nat := 1 <<< 12
def mEXTI_SWIER1_SWI13 : Nat := 1 <<< 13
def mEXTI_SWIER1_SWI14 : Nat := 1 <<< 14
def mEXTI_SWIER1_SWI15 : Nat := 1 <<< 15
def mEXTI_SWIER1_SWI16 : Nat := 1 <<< 16
def mEXTI_SWIER1_SWI18 : Nat := 1 <<< 18
def mEXTI_SWIER1_SWI19 : Nat := 1 <<< 19
def mEXTI_SWIER1_SWI20 : Nat := 1 <<< 20
def mEXTI_SWIER1_SWI21 : Nat := 1 <<< 21
def mEXTI_SWIER1_SWI22 : Nat := 1 <<< 22

/-! Per-line bit masks of `EXTI_PR1`, from `#define mEXTI_PR1_PIF<n> (1u << k)`. -/

def mEXTI_PR1_PIF0 : Nat := 1 <<< 0
def mEXTI_PR1_PIF1 : Nat := 1 <<< 1
def mEXTI_PR1_PIF2 : Nat := 1 <<< 2
def mEXTI_PR1_PIF3 : Nat := 1 <<< 3
def mEXTI_PR1_PIF4 : Nat := 1 <<< 4
def mEXTI_PR1_PIF5 : Nat := 1 <<< 5
def mEXTI_PR1_PIF6 : Nat := 1 <<< 6
def mEXTI_PR1_PIF7 : Nat := 1 <<< 7
def mEXTI_PR1_PIF8 : Nat := 1 <<< 8
def mEXTI_PR1_PIF9 : Nat := 1 <<< 9
def mEXTI_PR1_PIF10 : Nat := 1 <<< 10
def mEXTI_PR1_PIF11 : Nat := 1 <<< 11
def mEXTI_PR1_PIF12 : Nat := 1 <<< 12
def mEXTI_PR1_PIF13 : Nat := 1 <<< 13
def mEXTI_PR1_PIF14 : Nat := 1 <<< 14
def mEXTI_PR1_PIF15 : Nat := 1 <<< 15
def mEXTI_PR1_PIF16 : Nat := 1 <<< 16
def mEXTI_PR1_PIF18 : Nat := 1 <<< 18
def mEXTI_PR1_PIF19 : Nat := 1 <<< 19
def mEXTI_PR1_PIF20 : Nat := 1 <<< 20
def mEXTI_PR1_PIF21 : Nat := 1 <<< 21
def mEXTI_PR1_PIF22 : Nat := 1 <<< 22

/-! Per-line bit masks of `EXTI_IMR2`, from `#define mEXTI_IMR2_IM<n> (1u << k)`. -/

def mEXTI_IMR2_IM32 : Nat := 1 <<< 0
def mEXTI_IMR2_IM33 : Nat := 1 <<< 1
def mEXTI_IMR2_IM34 : Nat := 1 <<< 2
def mEXTI_IMR2_IM35 : Nat := 1 <<< 3
def mEXTI_IMR2_IM36 : Nat := 1 <<< 4
def mEXTI_IMR2_IM37 : Nat := 1 <<< 5
def mEXTI_IMR2_IM38 : Nat := 1 <<< 6
def mEXTI_IMR2_IM39 : Nat := 1 <<< 7
def mEXTI_IMR2_IM40 : Nat := 1 <<< 8

/-! Per-line bit masks of `EXTI_EMR2`, from `#define mEXTI_EMR2_EM<n> (1u << k)`. -/

def mEXTI_EMR2_EM32 : Nat := 1 <<< 0
def mEXTI_EMR2_EM33 : Nat := 1 <<< 1
def mEXTI_EMR2_EM34 : Nat := 1 <<< 2
def mEXTI_EMR2_EM35 : Nat := 1 <<< 3
def mEXTI_EMR2_EM36 : Nat := 1 <<< 4
def mEXTI_EMR2_EM37 : Nat := 1 <<< 5
def mEXTI_EMR2_EM38 : Nat := 1 <<< 6
def mEXTI_EMR2_EM39 : Nat := 1 <<< 7
def mEXTI_EMR2_EM40 : Nat := 1 <<< 8

/-! Per-line bit masks of `EXTI_RTSR2`, from `#define mEXTI_RTSR2_RT<n> (1u << k)`. -/

def mEXTI_RTSR2_RT35 : Nat := 1 <<< 3
def mEXTI_RTSR2_RT36 : Nat := 1 <<< 4
def mEXTI_RTSR2_RT37 : Nat := 1 <<< 5
def mEXTI_RTSR2_RT38 : Nat := 1 <<< 6

/-! Per-line bit masks of `EXTI_FTSR2`, from `#define mEXTI_FTSR2_FT<n> (1u << k)`. -/

def mEXTI_FTSR2_FT35 : Nat := 1 <<< 3
def mEXTI_FTSR2_FT36 : Nat := 1 <<< 4
def mEXTI_FTSR2_FT37 : Nat := 1 <<< 5
def mEXTI_FTSR2_FT38 : Nat := 1 <<< 6

/-! Per-line bit masks of `EXTI_SWIER2`, from `#define mEXTI_SWIER2_SWI<n> (1u << k)`. -/

def mEXTI_SWIER2_SWI35 : Nat := 1 <<< 3
def mEXTI_SWIER2_SWI36 : Nat := 1 <<< 4
def mEXTI_SWIER2_SWI37 : Nat := 1 <<< 5
def mEXTI_SWIER2_SWI38 : Nat := 1 <<< 6

/-! Per-line bit masks of `EXTI_PR2`, from `#define mEXTI_PR2_PIF<n> (1u << k)`. -/

def mEXTI_PR2_PIF35 : Nat := 1 <<< 3
def mEXTI_PR2_PIF36 : Nat := 1 <<< 4
def mEXTI_PR2_PIF37 : Nat := 1 <<< 5
def mEXTI_PR2_PIF38 : Nat := 1 <<< 6

/-! Valid / reserved whole-register masks, from the `m..._VALID` and
`m..._RESERVED` macros. -/

def mEXTI_IMR1_VALID : Nat := 0xFFFFFFFF
def mEXTI_IMR1_RESERVED : Nat := 0x00000000
def mEXTI_EMR1_VALID : Nat := 0xFFFFFFFF
def mEXTI_EMR1_RESERVED : Nat := 0x00000000
def mEXTI_RTSR1_VALID : Nat := 0x007DFFFF
def mEXTI_RTSR1_RESERVED : Nat := 0xFF820000
def mEXTI_FTSR1_VALID : Nat := 0x007DFFFF
def mEXTI_FTSR1_RESERVED : Nat := 0xFF820000
def mEXTI_SWIER1_VALID : Nat := 0x007DFFFF
def mEXTI_SWIER1_RESERVED : Nat := 0xFF820000
def mEXTI_PR1_VALID : Nat := 0x007DFFFF
def mEXTI_PR1_RESERVED : Nat := 0xFF820000
def mEXTI_IMR2_VALID : Nat := 0x000001FF
def mEXTI_IMR2_RESERVED : Nat := 0xFFFFFE00
def mEXTI_EMR2_VALID : Nat := 0x000001FF
def mEXTI_EMR2_RESERVED : Nat := 0xFFFFFE00
def mEXTI_RTSR2_VALID : Nat := 0x00000078
def mEXTI_RTSR2_RESERVED : Nat := 0xFFFFFF87
def mEXTI_FTSR2_VALID : Nat := 0x00000078
def mEXTI_FTSR2_RESERVED : Nat := 0xFFFFFF87
def mEXTI_SWIER2_VALID : Nat := 0x00000078
def mEXTI_SWIER2_RESERVED : Nat := 0xFFFFFF87
def mEXTI_PR2_VALID : Nat := 0x00000078
def mEXTI_PR2_RESERVED : Nat := 0xFFFFFF87

/-- The (line number, mask constant) pairs defined for `EXTI_IMR1`, in header order. -/
def imr1_lineMasks : List (Nat × Nat) :=
  [(0, mEXTI_IMR1_IM0), (1, mEXTI_IMR1_IM1), (2, mEXTI_IMR1_IM2), (3, mEXTI_IMR1_IM3),
   (4, mEXTI_IMR1_IM4), (5, mEXTI_IMR1_IM5), (6, mEXTI_IMR1_IM6), (7, mEXTI_IMR1_IM7),
   (8, mEXTI_IMR1_IM8), (9, mEXTI_IMR1_IM9), (10, mEXTI_IMR1_IM10), (11, mEXTI_IMR1_IM11),
   (12, mEXTI_IMR1_IM12), (13, mEXTI_IMR1_IM13), (14, mEXTI_IMR1_IM14), (15, mEXTI_IMR1_IM15),
   (16, mEXTI_IMR1_IM16), (17, mEXTI_IMR1_IM17), (18, mEXTI_IMR1_IM18), (19, mEXTI_IMR1_IM19),
   (20, mEXTI_IMR1_IM20), (21, mEXTI_IMR1_IM21), (22, mEXTI_IMR1_IM22), (23, mEXTI_IMR1_IM23),
   (24, mEXTI_IMR1_IM24), (25, mEXTI_IMR1_IM25), (26, mEXTI_IMR1_IM26), (27, mEXTI_IMR1_IM27),
   (28, mEXTI_IMR1_IM28), (29, mEXTI_IMR1_IM29), (30, mEXTI_IMR1_IM30), (31, mEXTI_IMR1_IM31)]

/-- The (line number, mask constant) pairs defined for `EXTI_EMR1`, in header order. -/
def emr1_lineMasks : List (Nat × Nat) :=
  [(0, mEXTI_EMR1_EM0), (1, mEXTI_EMR1_EM1), (2, mEXTI_EMR1_EM2), (3, mEXTI_EMR1_EM3),
   (4, mEXTI_EMR1_EM4), (5, mEXTI_EMR1_EM5), (6, mEXTI_EMR1_EM6), (7, mEXTI_EMR1_EM7),
   (8, mEXTI_EMR1_EM8), (9, mEXTI_EMR1_EM9), (10, mEXTI_EMR1_EM10), (11, mEXTI_EMR1_EM11),
   (12, mEXTI_EMR1_EM12), (13, mEXTI_EMR1_EM13), (14, mEXTI_EMR1_EM14), (15, mEXTI_EMR1_EM15),
   (16, mEXTI_EMR1_EM16), (17, mEXTI_EMR1_EM17), (18, mEXTI_EMR1_EM18), (19, mEXTI_EMR1_EM19),
   (20, mEXTI_EMR1_EM20), (21, mEXTI_EMR1_EM21), (22, mEXTI_EMR1_EM22), (23, mEXTI_EMR1_EM23),
   (24, mEXTI_EMR1_EM24), (25, mEXTI_EMR1_EM25), (26, mEXTI_EMR1_EM26), (27, mEXTI_EMR1_EM27),
   (28, mEXTI_EMR1_EM28), (29, mEXTI_EMR1_EM29), (30, mEXTI_EMR1_EM30), (31, mEXTI_EMR1_EM31)]

/-- The (line number, mask constant) pairs defined for `EXTI_RTSR1`, in header order. -/
def rtsr1_lineMasks : List (Nat × Nat) :=
  [(0, mEXTI_RTSR1_RT0), (1, mEXTI_RTSR1_RT1), (2, mEXTI_RTSR1_RT2), (3, mEXTI_RTSR1_RT3),
   (4, mEXTI_RTSR1_RT4), (5, mEXTI_RTSR1_RT5), (6, mEXTI_RTSR1_RT6), (7, mEXTI_RTSR1_RT7),
   (8, mEXTI_RTSR1_RT8), (9, mEXTI_RTSR1_RT9), (10, mEXTI_RTSR1_RT10), (11, mEXTI_RTSR1_RT11),
   (12, mEXTI_RTSR1_RT12), (13, mEXTI_RTSR1_RT13), (14, mEXTI_RTSR1_RT14), (15, mEXTI_RTSR1_RT15),
   (16, mEXTI_RTSR1_RT16), (18, mEXTI_RTSR1_RT18), (19, mEXTI_RTSR1_RT19), (20, mEXTI_RTSR1_RT20),
   (21, mEXTI_RTSR1_RT21), (22, mEXTI_RTSR1_RT22)]

/-- The (line number, mask constant) pairs defined for `EXTI_FTSR1`, in header order. -/
def ftsr1_lineMasks : List (Nat × Nat) :=
  [(0, mEXTI_FTSR1_FT0), (1, mEXTI_FTSR1_FT1), (2, mEXTI_FTSR1_FT2), (3, mEXTI_FTSR1_FT3),
   (4, mEXTI_FTSR1_FT4), (5, mEXTI_FTSR1_FT5), (6, mEXTI_FTSR1_FT6), (7, mEXTI_FTSR1_FT7),
   (8, mEXTI_FTSR1_FT8), (9, mEXTI_FTSR1_FT9), (10, mEXTI_FTSR1_FT10), (11, mEXTI_FTSR1_FT11),
   (12, mEXTI_FTSR1_FT12), (13, mEXTI_FTSR1_FT13), (14, mEXTI_FTSR1_FT14), (15, mEXTI_FTSR1_FT15),
   (16, mEXTI_FTSR1_FT16), (18, mEXTI_FTSR1_FT18), (19, mEXTI_FTSR1_FT19), (20, mEXTI_FTSR1_FT20),
   (21, mEXTI_FTSR1_FT21), (22, mEXTI_FTSR1_FT22)]

/-- The (line number, mask constant) pairs defined for `EXTI_SWIER1`, in header order. -/
def swier1_lineMasks : List (Nat × Nat) :=
  [(0, mEXTI_SWIER1_SWI0), (1, mEXTI_SWIER1_SWI1), (2, mEXTI_SWIER1_SWI2), (3, mEXTI_SWIER1_SWI3),
   (4, mEXTI_SWIER1_SWI4), (5, mEXTI_SWIER1_SWI5), (6, mEXTI_SWIER1_SWI6), (7, mEXTI_SWIER1_SWI7),
   (8, mEXTI_SWIER1_SWI8), (9, mEXTI_SWIER1_SWI9), (10, mEXTI_SWIER1_SWI10),
   (11, mEXTI_SWIER1_SWI11), (12, mEXTI_SWIER1_SWI12), (13, mEXTI_SWIER1_SWI13),
   (14, mEXTI_SWIER1_SWI14), (15, mEXTI_SWIER1_SWI15), (16, mEXTI_SWIER1_SWI16),
   (18, mEXTI_SWIER1_SWI18), (19, mEXTI_SWIER1_SWI19), (20, mEXTI_SWIER1_SWI20),
   (21, mEXTI_SWIER1_SWI21), (22, mEXTI_SWIER1_SWI22)]

/-- The (line number, mask constant) pairs defined for `EXTI_PR1`, in header order. -/
def pr1_lineMasks : List (Nat × Nat) :=
  [(0, mEXTI_PR1_PIF0), (1, mEXTI_PR1_PIF1), (2, mEXTI_PR1_PIF2), (3, mEXTI_PR1_PIF3),
   (4, mEXTI_PR1_PIF4), (5, mEXTI_PR1_PIF5), (6, mEXTI_PR1_PIF6), (7, mEXTI_PR1_PIF7),
   (8, mEXTI_PR1_PIF8), (9, mEXTI_PR1_PIF9), (10, mEXTI_PR1_PIF10), (11, mEXTI_PR1_PIF11),
   (12, mEXTI_PR1_PIF12), (13, mEXTI_PR1_PIF13), (14, mEXTI_PR1_PIF14), (15, mEXTI_PR1_PIF15),
   (16, mEXTI_PR1_PIF16), (18, mEXTI_PR1_PIF18), (19, mEXTI_PR1_PIF19), (20, mEXTI_PR1_PIF20),
   (21, mEXTI_PR1_PIF21), (22, mEXTI_PR1_PIF22)]

/-- The (line number, mask constant) pairs defined for `EXTI_IMR2`, in header order. -/
def imr2_lineMasks : List (Nat × Nat) :=
  [(32, mEXTI_IMR2_IM32), (33, mEXTI_IMR2_IM33), (34, mEXTI_IMR2_IM34), (35, mEXTI_IMR2_IM35),
   (36, mEXTI_IMR2_IM36), (37, mEXTI_IMR2_IM37), (38, mEXTI_IMR2_IM38), (39, mEXTI_IMR2_IM39),
   (40, mEXTI_IMR2_IM40)]

/-- The (line number, mask constant) pairs defined for `EXTI_EMR2`, in header order. -/
def emr2_lineMasks : List (Nat × Nat) :=
  [(32, mEXTI_EMR2_EM32), (33, mEXTI_EMR2_EM33), (34, mEXTI_EMR2_EM34), (35, mEXTI_EMR2_EM35),
   (36, mEXTI_EMR2_EM36), (37, mEXTI_EMR2_EM37), (38, mEXTI_EMR2_EM38), (39, mEXTI_EMR2_EM39),
   (40, mEXTI_EMR2_EM40)]

/-- The (line number, mask constant) pairs defined for `EXTI_RTSR2`, in header order. -/
def rtsr2_lineMasks : List (Nat × Nat) :=
  [(35, mEXTI_RTSR2_RT35), (36, mEXTI_RTSR2_RT36), (37, mEXTI_RTSR2_RT37), (38, mEXTI_RTSR2_RT38)]

/-- The (line number, mask constant) pairs defined for `EXTI_FTSR2`, in header order. -/
def ftsr2_lineMasks : List (Nat × Nat) :=
  [(35, mEXTI_FTSR2_FT35), (36, mEXTI_FTSR2_FT36), (37, mEXTI_FTSR2_FT37), (38, mEXTI_FTSR2_FT38)]

/-- The (line number, mask constant) pairs defined for `EXTI_SWIER2`, in header order. -/
def swier2_lineMasks : List (Nat × Nat) :=
  [(35, mEXTI_SWIER2_SWI35), (36, mEXTI_SWIER2_SWI36), (37, mEXTI_SWIER2_SWI37),
   (38, mEXTI_SWIER2_SWI38)]

/-- The (line number, mask constant) pairs defined for `EXTI_PR2`, in header order. -/
def pr2_lineMasks : List (Nat × Nat) :=
  [(35, mEXTI_PR2_PIF35), (36, mEXTI_PR2_PIF36), (37, mEXTI_PR2_PIF37), (38, mEXTI_PR2_PIF38)]

/-!
## Bitfield layouts

Each register type in the header is a packed struct of `uint32_t f : w;`
bitfields, listed from bit 0 upward.  A `RegField` records one such field:
its name, declared width, and whether it is one of the explicit `reserved`
padding fields.
-/

structure RegField where
  name : String
  width : Nat
  isRes : Bool
deriving DecidableEq

/-- Bitfield layout of `__EXTI_IMR1_t`, in declaration order (bit 0 first). -/
def fields_IMR1 : List RegField :=
  [⟨"IM0", 1, false⟩, ⟨"IM1", 1, false⟩, ⟨"IM2", 1, false⟩, ⟨"IM3", 1, false⟩, ⟨"IM4", 1, false⟩,
   ⟨"IM5", 1, false⟩, ⟨"IM6", 1, false⟩, ⟨"IM7", 1, false⟩, ⟨"IM8", 1, false⟩, ⟨"IM9", 1, false⟩,
   ⟨"IM10", 1, false⟩, ⟨"IM11", 1, false⟩, ⟨"IM12", 1, false⟩, ⟨"IM13", 1, false⟩,
   ⟨"IM14", 1, false⟩, ⟨"IM15", 1, false⟩, ⟨"IM16", 1, false⟩, ⟨"IM17", 1, false⟩,
   ⟨"IM18", 1, false⟩, ⟨"IM19", 1, false⟩, ⟨"IM20", 1, false⟩, ⟨"IM21", 1, false⟩,
   ⟨"IM22", 1, false⟩, ⟨"IM23", 1, false⟩, ⟨"IM24", 1, false⟩, ⟨"IM25", 1, false⟩,
   ⟨"IM26", 1, false⟩, ⟨"IM27", 1, false⟩, ⟨"IM28", 1, false⟩, ⟨"IM29", 1, false⟩,
   ⟨"IM30", 1, false⟩, ⟨"IM31", 1, false⟩]

/-- Bitfield layout of `__EXTI_EMR1_t`, in declaration order (bit 0 first). -/
def fields_EMR1 : List RegField :=
  [⟨"EM0", 1, false⟩, ⟨"EM1", 1, false⟩, ⟨"EM2", 1, false⟩, ⟨"EM3", 1, false⟩, ⟨"EM4", 1, false⟩,
   ⟨"EM5", 1, false⟩, ⟨"EM6", 1, false⟩, ⟨"EM7", 1, false⟩, ⟨"EM8", 1, false⟩, ⟨"EM9", 1, false⟩,
   ⟨"EM10", 1, false⟩, ⟨"EM11", 1, false⟩, ⟨"EM12", 1, false⟩, ⟨"EM13", 1, false⟩,
   ⟨"EM14", 1, false⟩, ⟨"EM15", 1, false⟩, ⟨"EM16", 1, false⟩, ⟨"EM17", 1, false⟩,
   ⟨"EM18", 1, false⟩, ⟨"EM19", 1, false⟩, ⟨"EM20", 1, false⟩, ⟨"EM21", 1, false⟩,
   ⟨"EM22", 1, false⟩, ⟨"EM23", 1, false⟩, ⟨"EM24", 1, false⟩, ⟨"EM25", 1, false⟩,
   ⟨"EM26", 1, false⟩, ⟨"EM27", 1, false⟩, ⟨"EM28", 1, false⟩, ⟨"EM29", 1, false⟩,
   ⟨"EM30", 1, false⟩, ⟨"EM31", 1, false⟩]

/-- Bitfield layout of `__EXTI_RTSR1_t`, in declaration order (bit 0 first). -/
def fields_RTSR1 : List RegField :=
  [⟨"RT0", 1, false⟩, ⟨"RT1", 1, false⟩, ⟨"RT2", 1, false⟩, ⟨"RT3", 1, false⟩, ⟨"RT4", 1, false⟩,
   ⟨"RT5", 1, false⟩, ⟨"RT6", 1, false⟩, ⟨"RT7", 1, false⟩, ⟨"RT8", 1, false⟩, ⟨"RT9", 1, false⟩,
   ⟨"RT10", 1, false⟩, ⟨"RT11", 1, false⟩, ⟨"RT12", 1, false⟩, ⟨"RT13", 1, false⟩,
   ⟨"RT14", 1, false⟩, ⟨"RT15", 1, false⟩, ⟨"RT16", 1, false⟩, ⟨"reserved0", 1, true⟩,
   ⟨"RT18", 1, false⟩, ⟨"RT19", 1, false⟩, ⟨"RT20", 1, false⟩, ⟨"RT21", 1, false⟩,
   ⟨"RT22", 1, false⟩, ⟨"reserved1", 9, true⟩]

/-- Bitfield layout of `__EXTI_FTSR1_t`, in declaration order (bit 0 first). -/
def fields_FTSR1 : List RegField :=
  [⟨"FT0", 1, false⟩, ⟨"FT1", 1, false⟩, ⟨"FT2", 1, false⟩, ⟨"FT3", 1, false⟩, ⟨"FT4", 1, false⟩,
   ⟨"FT5", 1, false⟩, ⟨"FT6", 1, false⟩, ⟨"FT7", 1, false⟩, ⟨"FT8", 1, false⟩, ⟨"FT9", 1, false⟩,
   ⟨"FT10", 1, false⟩, ⟨"FT11", 1, false⟩, ⟨"FT12", 1, false⟩, ⟨"FT13", 1, false⟩,
   ⟨"FT14", 1, false⟩, ⟨"FT15", 1, false⟩, ⟨"FT16", 1, false⟩, ⟨"reserved0", 1, true⟩,
   ⟨"FT18", 1, false⟩, ⟨"FT19", 1, false⟩, ⟨"FT20", 1, false⟩, ⟨"FT21", 1, false⟩,
   ⟨"FT22", 1, false⟩, ⟨"reserved1", 9, true⟩]

/-- Bitfield layout of `__EXTI_SWIER1_t`, in declaration order (bit 0 first). -/
def fields_SWIER1 : List RegField :=
  [⟨"SWI0", 1, false⟩, ⟨"SWI1", 1, false⟩, ⟨"SWI2", 1, false⟩, ⟨"SWI3", 1, false⟩,
   ⟨"SWI4", 1, false⟩, ⟨"SWI5", 1, false⟩, ⟨"SWI6", 1, false⟩, ⟨"SWI7", 1, false⟩,
   ⟨"SWI8", 1, false⟩, ⟨"SWI9", 1, false⟩, ⟨"SWI10", 1, false⟩, ⟨"SWI11", 1, false⟩,
   ⟨"SWI12", 1, false⟩, ⟨"SWI13", 1, false⟩, ⟨"SWI14", 1, false⟩, ⟨"SWI15", 1, false⟩,
   ⟨"SWI16", 1, false⟩, ⟨"reserved0", 1, true⟩, ⟨"SWI18", 1, false⟩, ⟨"SWI19", 1, false⟩,
   ⟨"SWI20", 1, false⟩, ⟨"SWI21", 1, false⟩, ⟨"SWI22", 1, false⟩, ⟨"reserved1", 9, true⟩]

/-- Bitfield layout of `__EXTI_PR1_t`, in declaration order (bit 0 first). -/
def fields_PR1 : List RegField :=
  [⟨"PIF0", 1, false⟩, ⟨"PIF1", 1, false⟩, ⟨"PIF2", 1, false⟩, ⟨"PIF3", 1, false⟩,
   ⟨"PIF4", 1, false⟩, ⟨"PIF5", 1, false⟩, ⟨"PIF6", 1, false⟩, ⟨"PIF7", 1, false⟩,
   ⟨"PIF8", 1, false⟩, ⟨"PIF9", 1, false⟩, ⟨"PIF10", 1, false⟩, ⟨"PIF11", 1, false⟩,
   ⟨"PIF12", 1, false⟩, ⟨"PIF13", 1, false⟩, ⟨"PIF14", 1, false⟩, ⟨"PIF15", 1, false⟩,
   ⟨"PIF16", 1, false⟩, ⟨"reserved0", 1, true⟩, ⟨"PIF18", 1, false⟩, ⟨"PIF19", 1, false⟩,
   ⟨"PIF20", 1, false⟩, ⟨"PIF21", 1, false⟩, ⟨"PIF22", 1, false⟩, ⟨"reserved1", 9, true⟩]

/-- Bitfield layout of `__EXTI_IMR2_t`, in declaration order (bit 0 first). -/
def fields_IMR2 : List RegField :=
  [⟨"IM32", 1, false⟩, ⟨"IM33", 1, false⟩, ⟨"IM34", 1, false⟩, ⟨"IM35", 1, false⟩,
   ⟨"IM36", 1, false⟩, ⟨"IM37", 1, false⟩, ⟨"IM38", 1, false⟩, ⟨"IM39", 1, false⟩,
   ⟨"IM40", 1, false⟩, ⟨"reserved0", 23, true⟩]

/-- Bitfield layout of `__EXTI_EMR2_t`, in declaration order (bit 0 first). -/
def fields_EMR2 : List RegField :=
  [⟨"EM32", 1, false⟩, ⟨"EM33", 1, false⟩, ⟨"EM34", 1, false⟩, ⟨"EM35", 1, false⟩,
   ⟨"EM36", 1, false⟩, ⟨"EM37", 1, false⟩, ⟨"EM38", 1, false⟩, ⟨"EM39", 1, false⟩,
   ⟨"EM40", 1, false⟩, ⟨"reserved0", 23, true⟩]

/-- Bitfield layout of `__EXTI_RTSR2_t`, in declaration order (bit 0 first). -/
def fields_RTSR2 : List RegField :=
  [⟨"reserved0", 3, true⟩, ⟨"RT35", 1, false⟩, ⟨"RT36", 1, false⟩, ⟨"RT37", 1, false⟩,
   ⟨"RT38", 1, false⟩, ⟨"reserved1", 25, true⟩]

/-- Bitfield layout of `__EXTI_FTSR2_t`, in declaration order (bit 0 first). -/
def fields_FTSR2 : List RegField :=
  [⟨"reserved0", 3, true⟩, ⟨"FT35", 1, false⟩, ⟨"FT36", 1, false⟩, ⟨"FT37", 1, false⟩,
   ⟨"FT38", 1, false⟩, ⟨"reserved1", 25, true⟩]

/-- Bitfield layout of `__EXTI_SWIER2_t`, in declaration order (bit 0 first). -/
def fields_SWIER2 : List RegField :=
  [⟨"reserved0", 3, true⟩, ⟨"SWI35", 1, false⟩, ⟨"SWI36", 1, false⟩, ⟨"SWI37", 1, false⟩,
   ⟨"SWI38", 1, false⟩, ⟨"reserved1", 25, true⟩]

/-- Bitfield layout of `__EXTI_PR2_t`, in declaration order (bit 0 first). -/
def fields_PR2 : List RegField :=
  [⟨"reserved0", 3, true⟩, ⟨"PIF35", 1, false⟩, ⟨"PIF36", 1, false⟩, ⟨"PIF37", 1, false⟩,
   ⟨"PIF38", 1, false⟩, ⟨"reserved1", 25, true⟩]

/-!
## Derived layout functions

`fieldsMask pick fs off` folds over a bitfield list, starting at bit `off`,
OR-ing in the `width`-bit slice of every field whose `isRes` flag equals
`pick`: with `pick = false` it yields the bit positions covered by named
fields, with `pick = true` those covered by the explicit reserved fields.
-/

def regWidth (fs : List RegField) : Nat := (fs.map RegField.width).sum

def fieldsMask (pick : Bool) : List RegField → Nat → Nat
  | [], _ => 0
  | f :: rest, off =>
      (if f.isRes == pick then ((1 <<< f.width) - 1) <<< off else 0) |||
        fieldsMask pick rest (off + f.width)

/-- Number of named (non-reserved) fields in a layout. -/
def namedCount (fs : List RegField) : Nat := (fs.filter (fun f => !f.isRes)).length

/-- Widths of the reserved fields of a layout, in order. -/
def reservedWidths (fs : List RegField) : List Nat :=
  (fs.filter RegField.isRes).map RegField.width

/-!
## Aggregate peripheral layout

`__EXTI_t` is a C struct of fourteen 4-byte members (twelve register unions
and two `uint32_t` reserved words).  Every member has size 4 and alignment 4,
so the struct layout is the plain running sum of member sizes with no
compiler-inserted padding.
-/

/-- Members of `__EXTI_t` in declaration order, with their byte sizes. -/
def extiMembers : List (String × Nat) :=
  [("IMR1", 4), ("EMR1", 4), ("RTSR1", 4), ("FTSR1", 4), ("SWIER1", 4), ("PR1", 4),
   ("_RESERVED_0x18", 4), ("_RESERVED_0x1C", 4),
   ("IMR2", 4), ("EMR2", 4), ("RTSR2", 4), ("FTSR2", 4), ("SWIER2", 4), ("PR2", 4)]

/-- Byte offset of the named member: running sum of the sizes before it. -/
def offsetIn (name : String) : List (String × Nat) → Nat → Option Nat
  | [], _ => none
  | (n, sz) :: rest, off => if n = name then some off else offsetIn name rest (off + sz)

def offsetOf (name : String) : Option Nat := offsetIn name extiMembers 0

/-- Total byte size of `__EXTI_t`: sum of all member sizes. -/
def extiSize : Nat := (extiMembers.map Prod.snd).sum

/-!
## Register word operations

Registers are 32-bit words.  `setField` is the effect, on the full word, of
writing 1 to a single-bit field through the `b...` accessor macros (the
compiler realises the bitfield store as a read-modify-write that ORs in the
bit's mask).  `prWrite` is the pending registers' write-1-to-clear semantics.
-/

/-- Read-modify-write that sets the field selected by mask `m` to 1. -/
def setField (w m : Nat) : Nat := w ||| m

/-- Modelled from the spec: the write-1-to-clear hardware semantics of the
pending registers PR1 and PR2.  The header only declares their layout; the
spec (and the header's own doc comments) state that a bit written as 1 is
cleared and a bit written as 0 is left alone, i.e. the new value is the old
value AND NOT the written mask. -/
def prWrite (old written : Nat) : Nat := old &&& (written ^^^ 0xFFFFFFFF)

/-!
## Small decidable helpers used by the claim statements
-/

/-- OR of a list of masks. -/
def orMasks (ms : List Nat) : Nat := ms.foldl (fun a b => a ||| b) 0

/-- The word with exactly the listed bit positions set. -/
def maskOfBits (bs : List Nat) : Nat := bs.foldl (fun a n => a ||| (1 <<< n)) 0

/-- `true` iff `m` has exactly one bit set. -/
def isOneBit (m : Nat) : Bool := decide (m ≠ 0) && (m &&& (m - 1) == 0)

/-- `true` iff the masks in the list are pairwise disjoint. -/
def allDisjoint : List Nat → Bool
  | [] => true
  | m :: rest => rest.all (fun m2 => m &&& m2 == 0) && allDisjoint rest

/-- `true` iff every line that `xs` defines a mask for and `ys` also defines a
mask for gets the same mask in both. -/
def agreesOn (xs ys : List (Nat × Nat)) : Bool :=
  xs.all fun p =>
    match ys.lookup p.1 with
    | some m => m == p.2
    | none => true

/-- All per-line mask constants of all twelve registers. -/
def allFieldMasks : List Nat :=
  (imr1_lineMasks ++ emr1_lineMasks ++ rtsr1_lineMasks ++ ftsr1_lineMasks ++
   swier1_lineMasks ++ pr1_lineMasks ++ imr2_lineMasks ++ emr2_lineMasks ++
   rtsr2_lineMasks ++ ftsr2_lineMasks ++ swier2_lineMasks ++ pr2_lineMasks).map Prod.snd
/-!
## Claims
-/

/-- Claim C1: each of the twelve registers' declared valid-bit mask equals both
its documented hexadecimal constant and the mask implied by the documented line
numbers (lines 0-31 for IMR1/EMR1; bits 0-16 and 18-22 for RTSR1, FTSR1,
SWIER1, PR1; lines 32-40 at bits 0-8 for IMR2/EMR2; lines 35-38 at bits 3-6
for RTSR2, FTSR2, SWIER2, PR2). -/
theorem claim_C1 :
    mEXTI_IMR1_VALID = 0xFFFFFFFF ∧ mEXTI_IMR1_VALID = maskOfBits (List.range 32) ∧
    mEXTI_EMR1_VALID = 0xFFFFFFFF ∧ mEXTI_EMR1_VALID = maskOfBits (List.range 32) ∧
    mEXTI_RTSR1_VALID = 0x007DFFFF ∧
    mEXTI_RTSR1_VALID = maskOfBits (List.range 17 ++ [18, 19, 20, 21, 22]) ∧
    mEXTI_FTSR1_VALID = 0x007DFFFF ∧
    mEXTI_FTSR1_VALID = maskOfBits (List.range 17 ++ [18, 19, 20, 21, 22]) ∧
    mEXTI_SWIER1_VALID = 0x007DFFFF ∧
    mEXTI_SWIER1_VALID = maskOfBits (List.range 17 ++ [18, 19, 20, 21, 22]) ∧
    mEXTI_PR1_VALID = 0x007DFFFF ∧
    mEXTI_PR1_VALID = maskOfBits (List.range 17 ++ [18, 19, 20, 21, 22]) ∧
    mEXTI_RTSR1_VALID.testBit 17 = false ∧ mEXTI_RTSR1_VALID.testBit 23 = false ∧
    mEXTI_RTSR1_VALID.testBit 31 = false ∧
    mEXTI_IMR2_VALID = 0x000001FF ∧
    mEXTI_IMR2_VALID = maskOfBits ([32, 33, 34, 35, 36, 37, 38, 39, 40].map (fun n => n - 32)) ∧
    mEXTI_EMR2_VALID = 0x000001FF ∧
    mEXTI_EMR2_VALID = maskOfBits ([32, 33, 34, 35, 36, 37, 38, 39, 40].map (fun n => n - 32)) ∧
    mEXTI_RTSR2_VALID = 0x00000078 ∧
    mEXTI_RTSR2_VALID = maskOfBits ([35, 36, 37, 38].map (fun n => n - 32)) ∧
    mEXTI_FTSR2_VALID = 0x00000078 ∧
    mEXTI_FTSR2_VALID = maskOfBits ([35, 36, 37, 38].map (fun n => n - 32)) ∧
    mEXTI_SWIER2_VALID = 0x00000078 ∧
    mEXTI_SWIER2_VALID = maskOfBits ([35, 36, 37, 38].map (fun n => n - 32)) ∧
    mEXTI_PR2_VALID = 0x00000078 ∧
    mEXTI_PR2_VALID = maskOfBits ([35, 36, 37, 38].map (fun n => n - 32)) := by
  decide

/-- Claim C2: for each of the twelve registers, the VALID and RESERVED mask
constants partition the 32 bit positions: their OR is `0xFFFFFFFF` and their
AND is `0`. -/
theorem claim_C2 :
    (mEXTI_IMR1_VALID ||| mEXTI_IMR1_RESERVED = 0xFFFFFFFF ∧
      mEXTI_IMR1_VALID &&& mEXTI_IMR1_RESERVED = 0) ∧
    (mEXTI_EMR1_VALID ||| mEXTI_EMR1_RESERVED = 0xFFFFFFFF ∧
      mEXTI_EMR1_VALID &&& mEXTI_EMR1_RESERVED = 0) ∧
    (mEXTI_RTSR1_VALID ||| mEXTI_RTSR1_RESERVED = 0xFFFFFFFF ∧
      mEXTI_RTSR1_VALID &&& mEXTI_RTSR1_RESERVED = 0) ∧
    (mEXTI_FTSR1_VALID ||| mEXTI_FTSR1_RESERVED = 0xFFFFFFFF ∧
      mEXTI_FTSR1_VALID &&& mEXTI_FTSR1_RESERVED = 0) ∧
    (mEXTI_SWIER1_VALID ||| mEXTI_SWIER1_RESERVED = 0xFFFFFFFF ∧
      mEXTI_SWIER1_VALID &&& mEXTI_SWIER1_RESERVED = 0) ∧
    (mEXTI_PR1_VALID ||| mEXTI_PR1_RESERVED = 0xFFFFFFFF ∧
      mEXTI_PR1_VALID &&& mEXTI_PR1_RESERVED = 0) ∧
    (mEXTI_IMR2_VALID ||| mEXTI_IMR2_RESERVED = 0xFFFFFFFF ∧
      mEXTI_IMR2_VALID &&& mEXTI_IMR2_RESERVED = 0) ∧
    (mEXTI_EMR2_VALID ||| mEXTI_EMR2_RESERVED = 0xFFFFFFFF ∧
      mEXTI_EMR2_VALID &&& mEXTI_EMR2_RESERVED = 0) ∧
    (mEXTI_RTSR2_VALID ||| mEXTI_RTSR2_RESERVED = 0xFFFFFFFF ∧
      mEXTI_RTSR2_VALID &&& mEXTI_RTSR2_RESERVED = 0) ∧
    (mEXTI_FTSR2_VALID ||| mEXTI_FTSR2_RESERVED = 0xFFFFFFFF ∧
      mEXTI_FTSR2_VALID &&& mEXTI_FTSR2_RESERVED = 0) ∧
    (mEXTI_SWIER2_VALID ||| mEXTI_SWIER2_RESERVED = 0xFFFFFFFF ∧
      mEXTI_SWIER2_VALID &&& mEXTI_SWIER2_RESERVED = 0) ∧
    (mEXTI_PR2_VALID ||| mEXTI_PR2_RESERVED = 0xFFFFFFFF ∧
      mEXTI_PR2_VALID &&& mEXTI_PR2_RESERVED = 0) := by
  decide

/-- Claim C3: under the write-1-to-clear model of PR1/PR2 (new = old AND NOT
written), writing the single-bit mask of bit `N` clears bit `N`, leaves every
other bit of the prior value unchanged, and writing `0` changes nothing. -/
theorem claim_C3 : ∀ old : Nat, old < 2 ^ 32 → ∀ N : Nat, N < 32 →
    (prWrite old (1 <<< N)).testBit N = false ∧
    (∀ M : Nat, M ≠ N → (prWrite old (1 <<< N)).testBit M = old.testBit M) ∧
    prWrite old 0 = old := by
  intro old hold N hN
  have hFF : (0xFFFFFFFF : Nat) = 2 ^ 32 - 1 := by norm_num
  refine ⟨?_, ?_, ?_⟩
  · show (old &&& ((1 <<< N) ^^^ 0xFFFFFFFF)).testBit N = false
    rw [hFF, Nat.testBit_and, Nat.testBit_xor, Nat.one_shiftLeft, Nat.testBit_two_pow,
      Nat.testBit_two_pow_sub_one]
    simp [hN]
  · intro M hM
    rcases Nat.lt_or_ge M 32 with hM32 | hM32
    · have hNM : N ≠ M := fun h => hM h.symm
      show (old &&& ((1 <<< N) ^^^ 0xFFFFFFFF)).testBit M = old.testBit M
      rw [hFF, Nat.testBit_and, Nat.testBit_xor, Nat.one_shiftLeft, Nat.testBit_two_pow,
        Nat.testBit_two_pow_sub_one]
      simp [hNM, hM32]
    · have hoM : old.testBit M = false :=
        Nat.testBit_lt_two_pow
          (Nat.lt_of_lt_of_le hold (Nat.pow_le_pow_right (by norm_num) hM32))
      show (old &&& ((1 <<< N) ^^^ 0xFFFFFFFF)).testBit M = old.testBit M
      rw [Nat.testBit_and, hoM]
      simp
  · show old &&& (0 ^^^ 0xFFFFFFFF) = old
    rw [Nat.zero_xor, hFF, Nat.and_pow_two_sub_one_of_lt_two_pow hold]

/-- Witness for C3: cleared pending word `0x25`, bit 2; bit 0 and bit 5 survive
and a zero write is the identity. -/
theorem claim_C3_witness :
    (prWrite 0x25 (1 <<< 2)).testBit 2 = false ∧
    (prWrite 0x25 (1 <<< 2)).testBit 5 = (0x25 : Nat).testBit 5 ∧
    prWrite 0x25 0 = 0x25 := by
  have h := claim_C3 0x25 (by norm_num) 2 (by norm_num)
  exact ⟨h.1, h.2.1 5 (by decide), h.2.2⟩
/-- Claim C4: bit positions are stable across the registers of a bank.  Every
bank-1 per-line mask equals `1 <<< line`, every bank-2 per-line mask equals
`1 <<< (line - 32)`, and on every line shared between two registers of the
same bank the two registers' mask constants agree. -/
theorem claim_C4 :
    (imr1_lineMasks.all fun p => p.2 == 1 <<< p.1) = true ∧
    (emr1_lineMasks.all fun p => p.2 == 1 <<< p.1) = true ∧
    (rtsr1_lineMasks.all fun p => p.2 == 1 <<< p.1) = true ∧
    (ftsr1_lineMasks.all fun p => p.2 == 1 <<< p.1) = true ∧
    (swier1_lineMasks.all fun p => p.2 == 1 <<< p.1) = true ∧
    (pr1_lineMasks.all fun p => p.2 == 1 <<< p.1) = true ∧
    (imr2_lineMasks.all fun p => p.2 == 1 <<< (p.1 - 32)) = true ∧
    (emr2_lineMasks.all fun p => p.2 == 1 <<< (p.1 - 32)) = true ∧
    (rtsr2_lineMasks.all fun p => p.2 == 1 <<< (p.1 - 32)) = true ∧
    (ftsr2_lineMasks.all fun p => p.2 == 1 <<< (p.1 - 32)) = true ∧
    (swier2_lineMasks.all fun p => p.2 == 1 <<< (p.1 - 32)) = true ∧
    (pr2_lineMasks.all fun p => p.2 == 1 <<< (p.1 - 32)) = true ∧
    agreesOn emr1_lineMasks imr1_lineMasks = true ∧
    agreesOn rtsr1_lineMasks imr1_lineMasks = true ∧
    agreesOn ftsr1_lineMasks imr1_lineMasks = true ∧
    agreesOn swier1_lineMasks imr1_lineMasks = true ∧
    agreesOn pr1_lineMasks imr1_lineMasks = true ∧
    agreesOn rtsr1_lineMasks ftsr1_lineMasks = true ∧
    agreesOn swier1_lineMasks pr1_lineMasks = true ∧
    agreesOn emr2_lineMasks imr2_lineMasks = true ∧
    agreesOn rtsr2_lineMasks imr2_lineMasks = true ∧
    agreesOn ftsr2_lineMasks imr2_lineMasks = true ∧
    agreesOn swier2_lineMasks imr2_lineMasks = true ∧
    agreesOn pr2_lineMasks imr2_lineMasks = true := by
  decide

/-- Claim C5 fails as literally stated: writing the IM5 bitfield over the prior
word `1` reads back `0x21`, which is not the mask constant `0x20`. -/
theorem claim_C5_counterexample : ¬ setField 1 mEXTI_IMR1_IM5 = mEXTI_IMR1_IM5 := by
  decide

/-- Claim C5 (amended): writing a single named bit field of any register over
an arbitrary prior word, the field reads back as its mask (the word AND the
mask equals the mask), and every bit position outside the mask is unchanged
from the prior word.  (As stated, the claim asked the whole read-back word to
equal the mask, which already fails for prior word `1`.) -/
theorem claim_C5 : ∀ m ∈ allFieldMasks, ∀ w : Nat,
    setField w m &&& m = m ∧
    ∀ i : Nat, m.testBit i = false → (setField w m).testBit i = w.testBit i := by
  intro m _ w
  constructor
  · apply Nat.eq_of_testBit_eq
    intro i
    show ((w ||| m) &&& m).testBit i = m.testBit i
    rw [Nat.testBit_and, Nat.testBit_or]
    cases h : m.testBit i <;> simp [h]
  · intro i h
    show (w ||| m).testBit i = w.testBit i
    rw [Nat.testBit_or, h]
    simp

/-- Witness for C5: the IM5 field over prior word `5`. -/
theorem claim_C5_witness :
    setField 5 mEXTI_IMR1_IM5 &&& mEXTI_IMR1_IM5 = mEXTI_IMR1_IM5 ∧
    (setField 5 mEXTI_IMR1_IM5).testBit 1 = (5 : Nat).testBit 1 := by
  have h := claim_C5 mEXTI_IMR1_IM5 (by decide) 5
  exact ⟨h.1, h.2 1 (by decide)⟩

/-- Claim C6: the `__EXTI_t` aggregate is 0x38 = 56 bytes, with the twelve
registers at the documented offsets and the two 4-byte reserved words filling
the 64-bit gap at 0x18-0x1C. -/
theorem claim_C6 :
    extiSize = 0x38 ∧
    offsetOf "IMR1" = some 0x00 ∧ offsetOf "EMR1" = some 0x04 ∧
    offsetOf "RTSR1" = some 0x08 ∧ offsetOf "FTSR1" = some 0x0C ∧
    offsetOf "SWIER1" = some 0x10 ∧ offsetOf "PR1" = some 0x14 ∧
    offsetOf "IMR2" = some 0x20 ∧ offsetOf "EMR2" = some 0x24 ∧
    offsetOf "RTSR2" = some 0x28 ∧ offsetOf "FTSR2" = some 0x2C ∧
    offsetOf "SWIER2" = some 0x30 ∧ offsetOf "PR2" = some 0x34 ∧
    offsetOf "_RESERVED_0x18" = some 0x18 ∧ offsetOf "_RESERVED_0x1C" = some 0x1C ∧
    extiMembers.lookup "_RESERVED_0x18" = some 4 ∧
    extiMembers.lookup "_RESERVED_0x1C" = some 4 := by
  decide

/-- Claim C7: every register type declares exactly 32 bits of fields; the named
fields cover exactly the VALID mask and the explicit reserved fields cover
exactly the RESERVED mask, so no bit position is left undefined; IMR2 in
particular has 9 named bits plus one 23-bit reserved field. -/
theorem claim_C7 :
    (regWidth fields_IMR1 = 32 ∧ fieldsMask false fields_IMR1 0 = mEXTI_IMR1_VALID ∧
      fieldsMask true fields_IMR1 0 = mEXTI_IMR1_RESERVED) ∧
    (regWidth fields_EMR1 = 32 ∧ fieldsMask false fields_EMR1 0 = mEXTI_EMR1_VALID ∧
      fieldsMask true fields_EMR1 0 = mEXTI_EMR1_RESERVED) ∧
    (regWidth fields_RTSR1 = 32 ∧ fieldsMask false fields_RTSR1 0 = mEXTI_RTSR1_VALID ∧
      fieldsMask true fields_RTSR1 0 = mEXTI_RTSR1_RESERVED) ∧
    (regWidth fields_FTSR1 = 32 ∧ fieldsMask false fields_FTSR1 0 = mEXTI_FTSR1_VALID ∧
      fieldsMask true fields_FTSR1 0 = mEXTI_FTSR1_RESERVED) ∧
    (regWidth fields_SWIER1 = 32 ∧ fieldsMask false fields_SWIER1 0 = mEXTI_SWIER1_VALID ∧
      fieldsMask true fields_SWIER1 0 = mEXTI_SWIER1_RESERVED) ∧
    (regWidth fields_PR1 = 32 ∧ fieldsMask false fields_PR1 0 = mEXTI_PR1_VALID ∧
      fieldsMask true fields_PR1 0 = mEXTI_PR1_RESERVED) ∧
    (regWidth fields_IMR2 = 32 ∧ fieldsMask false fields_IMR2 0 = mEXTI_IMR2_VALID ∧
      fieldsMask true fields_IMR2 0 = mEXTI_IMR2_RESERVED) ∧
    (regWidth fields_EMR2 = 32 ∧ fieldsMask false fields_EMR2 0 = mEXTI_EMR2_VALID ∧
      fieldsMask true fields_EMR2 0 = mEXTI_EMR2_RESERVED) ∧
    (regWidth fields_RTSR2 = 32 ∧ fieldsMask false fields_RTSR2 0 = mEXTI_RTSR2_VALID ∧
      fieldsMask true fields_RTSR2 0 = mEXTI_RTSR2_RESERVED) ∧
    (regWidth fields_FTSR2 = 32 ∧ fieldsMask false fields_FTSR2 0 = mEXTI_FTSR2_VALID ∧
      fieldsMask true fields_FTSR2 0 = mEXTI_FTSR2_RESERVED) ∧
    (regWidth fields_SWIER2 = 32 ∧ fieldsMask false fields_SWIER2 0 = mEXTI_SWIER2_VALID ∧
      fieldsMask true fields_SWIER2 0 = mEXTI_SWIER2_RESERVED) ∧
    (regWidth fields_PR2 = 32 ∧ fieldsMask false fields_PR2 0 = mEXTI_PR2_VALID ∧
      fieldsMask true fields_PR2 0 = mEXTI_PR2_RESERVED) ∧
    namedCount fields_IMR2 = 9 ∧ reservedWidths fields_IMR2 = [23] := by
  decide

/-- Claim C8: from IMR1 = 0, setting IM5 yields 0x20; from RTSR1 = 0, setting
RT22 yields 0x400000. -/
theorem claim_C8 :
    setField 0x00000000 mEXTI_IMR1_IM5 = 0x00000020 ∧
    setField 0x00000000 mEXTI_RTSR1_RT22 = 0x00400000 := by
  decide

/-- Claim C9: per register, the OR of all defined per-line masks is exactly the
VALID mask, each mask is a single bit, distinct masks are disjoint, no mask
touches a reserved bit, and no mask is defined for a reserved line (RTSR1-family
registers define nothing for line 17; RTSR2-family registers define nothing for
lines 32-34 and 39-40). -/
theorem claim_C9 :
    orMasks (imr1_lineMasks.map Prod.snd) = mEXTI_IMR1_VALID ∧
    orMasks (emr1_lineMasks.map Prod.snd) = mEXTI_EMR1_VALID ∧
    orMasks (rtsr1_lineMasks.map Prod.snd) = mEXTI_RTSR1_VALID ∧
    orMasks (ftsr1_lineMasks.map Prod.snd) = mEXTI_FTSR1_VALID ∧
    orMasks (swier1_lineMasks.map Prod.snd) = mEXTI_SWIER1_VALID ∧
    orMasks (pr1_lineMasks.map Prod.snd) = mEXTI_PR1_VALID ∧
    orMasks (imr2_lineMasks.map Prod.snd) = mEXTI_IMR2_VALID ∧
    orMasks (emr2_lineMasks.map Prod.snd) = mEXTI_EMR2_VALID ∧
    orMasks (rtsr2_lineMasks.map Prod.snd) = mEXTI_RTSR2_VALID ∧
    orMasks (ftsr2_lineMasks.map Prod.snd) = mEXTI_FTSR2_VALID ∧
    orMasks (swier2_lineMasks.map Prod.snd) = mEXTI_SWIER2_VALID ∧
    orMasks (pr2_lineMasks.map Prod.snd) = mEXTI_PR2_VALID ∧
    (allFieldMasks.all isOneBit) = true ∧
    allDisjoint (imr1_lineMasks.map Prod.snd) = true ∧
    allDisjoint (emr1_lineMasks.map Prod.snd) = true ∧
    allDisjoint (rtsr1_lineMasks.map Prod.snd) = true ∧
    allDisjoint (ftsr1_lineMasks.map Prod.snd) = true ∧
    allDisjoint (swier1_lineMasks.map Prod.snd) = true ∧
    allDisjoint (pr1_lineMasks.map Prod.snd) = true ∧
    allDisjoint (imr2_lineMasks.map Prod.snd) = true ∧
    allDisjoint (emr2_lineMasks.map Prod.snd) = true ∧
    allDisjoint (rtsr2_lineMasks.map Prod.snd) = true ∧
    allDisjoint (ftsr2_lineMasks.map Prod.snd) = true ∧
    allDisjoint (swier2_lineMasks.map Prod.snd) = true ∧
    allDisjoint (pr2_lineMasks.map Prod.snd) = true ∧
    ((rtsr1_lineMasks.map Prod.snd).all fun m => m &&& mEXTI_RTSR1_RESERVED == 0) = true ∧
    ((ftsr1_lineMasks.map Prod.snd).all fun m => m &&& mEXTI_FTSR1_RESERVED == 0) = true ∧
    ((swier1_lineMasks.map Prod.snd).all fun m => m &&& mEXTI_SWIER1_RESERVED == 0) = true ∧
    ((pr1_lineMasks.map Prod.snd).all fun m => m &&& mEXTI_PR1_RESERVED == 0) = true ∧
    ((imr2_lineMasks.map Prod.snd).all fun m => m &&& mEXTI_IMR2_RESERVED == 0) = true ∧
    ((emr2_lineMasks.map Prod.snd).all fun m => m &&& mEXTI_EMR2_RESERVED == 0) = true ∧
    ((rtsr2_lineMasks.map Prod.snd).all fun m => m &&& mEXTI_RTSR2_RESERVED == 0) = true ∧
    ((ftsr2_lineMasks.map Prod.snd).all fun m => m &&& mEXTI_FTSR2_RESERVED == 0) = true ∧
    ((swier2_lineMasks.map Prod.snd).all fun m => m &&& mEXTI_SWIER2_RESERVED == 0) = true ∧
    ((pr2_lineMasks.map Prod.snd).all fun m => m &&& mEXTI_PR2_RESERVED == 0) = true ∧
    rtsr1_lineMasks.lookup 17 = none ∧ ftsr1_lineMasks.lookup 17 = none ∧
    swier1_lineMasks.lookup 17 = none ∧ pr1_lineMasks.lookup 17 = none ∧
    rtsr2_lineMasks.lookup 32 = none ∧ rtsr2_lineMasks.lookup 33 = none ∧
    rtsr2_lineMasks.lookup 34 = none ∧ rtsr2_lineMasks.lookup 39 = none ∧
    rtsr2_lineMasks.lookup 40 = none ∧ pr2_lineMasks.lookup 39 = none := by
  decide

/-- Claim C10: every bank-2 per-line mask is `1 <<< (line - 32)`: IMR2/EMR2 put
lines 32-40 at bits 0-8 and the RTSR2 family puts lines 35-38 at bits 3-6. -/
theorem claim_C10 :
    (imr2_lineMasks.all fun p => p.2 == 1 <<< (p.1 - 32)) = true ∧
    (emr2_lineMasks.all fun p => p.2 == 1 <<< (p.1 - 32)) = true ∧
    (rtsr2_lineMasks.all fun p => p.2 == 1 <<< (p.1 - 32)) = true ∧
    (ftsr2_lineMasks.all fun p => p.2 == 1 <<< (p.1 - 32)) = true ∧
    (swier2_lineMasks.all fun p => p.2 == 1 <<< (p.1 - 32)) = true ∧
    (pr2_lineMasks.all fun p => p.2 == 1 <<< (p.1 - 32)) = true ∧
    mEXTI_IMR2_IM32 = 1 <<< 0 ∧ mEXTI_IMR2_IM40 = 1 <<< 8 ∧
    mEXTI_RTSR2_RT35 = 1 <<< 3 ∧ mEXTI_PR2_PIF38 = 1 <<< 6 := by
  decide

end EXTI
